import Mathlib

/-!
Verification model of the stegawave edge gateway (`src/main.rs`).

The gateway authenticates each request with a JWT whose signing key is
derived by HMAC-SHA256 from a master secret and the stored service API key,
classifies the path (manifest vs. segment), probabilistically diverts
segments through a watermarking backend, and falls back to the original
segment bytes on any watermarking failure.

Bytes are modelled as `Nat` lists (each element < 256 where produced by the
primitives); machine words are `Nat` with explicit reduction modulo 2^32.
-/

set_option maxRecDepth 4000

namespace Stegawave

/-! ### SHA-256 (FIPS 180-4), executable over byte lists -/

/-- Truncate to a 32-bit word. -/
def mask32 (x : Nat) : Nat := x % 4294967296

/-- 32-bit addition. -/
def add32 (a b : Nat) : Nat := (a + b) % 4294967296

/-- 32-bit right rotation (input assumed < 2^32). -/
def rotr32 (n x : Nat) : Nat := ((x >>> n) ||| (x <<< (32 - n))) % 4294967296

/-- SHA-256 `Ch` function; bitwise not is xor with the 32-bit mask. -/
def chWord (x y z : Nat) : Nat := (x &&& y) ^^^ ((x ^^^ 4294967295) &&& z)

/-- SHA-256 `Maj` function. -/
def majWord (x y z : Nat) : Nat := (x &&& y) ^^^ (x &&& z) ^^^ (y &&& z)

/-- SHA-256 small sigma-0 (message schedule). -/
def schedSigma0 (x : Nat) : Nat := (rotr32 7 x) ^^^ (rotr32 18 x) ^^^ (x >>> 3)

/-- SHA-256 small sigma-1 (message schedule). -/
def schedSigma1 (x : Nat) : Nat := (rotr32 17 x) ^^^ (rotr32 19 x) ^^^ (x >>> 10)

/-- SHA-256 big Sigma-0 (compression). -/
def compSigma0 (x : Nat) : Nat := (rotr32 2 x) ^^^ (rotr32 13 x) ^^^ (rotr32 22 x)

/-- SHA-256 big Sigma-1 (compression). -/
def compSigma1 (x : Nat) : Nat := (rotr32 6 x) ^^^ (rotr32 11 x) ^^^ (rotr32 25 x)

/-- The 64 SHA-256 round constants (FIPS 180-4 section 4.2.2, written in
decimal). -/
def sha256K : List Nat :=
  [1116352408, 1899447441, 3049323471, 3921009573, 961987163,
   1508970993, 2453635748, 2870763221, 3624381080, 310598401,
   607225278, 1426881987, 1925078388, 2162078206, 2614888103,
   3248222580, 3835390401, 4022224774, 264347078, 604807628,
   770255983, 1249150122, 1555081692, 1996064986, 2554220882,
   2821834349, 2952996808, 3210313671, 3336571891, 3584528711,
   113926993, 338241895, 666307205, 773529912, 1294757372,
   1396182291, 1695183700, 1986661051, 2177026350, 2456956037,
   2730485921, 2820302411, 3259730800, 3345764771, 3516065817,
   3600352804, 4094571909, 275423344, 430227734, 506948616,
   659060556, 883997877, 958139571, 1322822218, 1537002063,
   1747873779, 1955562222, 2024104815, 2227730452, 2361852424,
   2428436474, 2756734187, 3204031479, 3329325298]

/-- The SHA-256 initial hash value (FIPS 180-4 section 5.3.3, decimal). -/
def sha256H0 : List Nat :=
  [1779033703, 3144134277, 1013904242, 2773480762,
   1359893119, 2600822924, 528734635, 1541459225]

/-- Big-endian packing of bytes into 32-bit words (length a multiple of 4). -/
def bytesToWordsBE : List Nat → List Nat
  | b0 :: b1 :: b2 :: b3 :: rest =>
      ((b0 <<< 24) ||| (b1 <<< 16) ||| (b2 <<< 8) ||| b3) :: bytesToWordsBE rest
  | _ => []

/-- Big-endian unpacking of a 32-bit word into four bytes. -/
def wordToBytesBE (w : Nat) : List Nat :=
  [(w >>> 24) % 256, (w >>> 16) % 256, (w >>> 8) % 256, w % 256]

/-- SHA-256 padding: append 0x80, zero bytes to 56 mod 64, then the
bit length as an 8-byte big-endian integer. -/
def sha256Pad (msg : List Nat) : List Nat :=
  let padZeros := (119 - (msg.length % 64)) % 64
  let bitLen := msg.length * 8
  msg ++ 0x80 :: List.replicate padZeros 0 ++
    (List.range 8).map (fun i => (bitLen >>> ((7 - i) * 8)) % 256)

/-- Extend a 16-word block to the full 64-word message schedule; the
argument counts the words still to append. -/
def scheduleExtend : Nat → List Nat → List Nat
  | 0, w => w
  | n + 1, w =>
      let i := w.length
      let wi := add32 (add32 (schedSigma1 (w.getD (i - 2) 0)) (w.getD (i - 7) 0))
                      (add32 (schedSigma0 (w.getD (i - 15) 0)) (w.getD (i - 16) 0))
      scheduleExtend n (w ++ [wi])

/-- One SHA-256 compression round: state is the 8-word working vector,
`kw` a (round constant, schedule word) pair. -/
def sha256Round (st : List Nat) (kw : Nat × Nat) : List Nat :=
  match st with
  | [a, b, c, d, e, f, g, h] =>
      let t1 := add32 h (add32 (compSigma1 e) (add32 (chWord e f g) (add32 kw.1 kw.2)))
      let t2 := add32 (compSigma0 a) (majWord a b c)
      [add32 t1 t2, a, b, c, add32 d t1, e, f, g]
  | other => other

/-- Process one 64-byte block: run 64 rounds, then add the working vector
into the chaining state. -/
def sha256Block (st : List Nat) (block : List Nat) : List Nat :=
  let w := scheduleExtend 48 (bytesToWordsBE block)
  let fin := (sha256K.zip w).foldl sha256Round st
  (st.zip fin).map (fun p => add32 p.1 p.2)

/-- Split a byte list into 64-byte chunks; the fuel argument (any bound on
the number of chunks, e.g. the list length) keeps the recursion structural
so that it reduces in the kernel. -/
def chunksAux : Nat → List Nat → List (List Nat)
  | 0, _ => []
  | _ + 1, [] => []
  | n + 1, l => (l.take 64) :: chunksAux n (l.drop 64)

/-- Split a byte list into 64-byte chunks. -/
def chunks64 (l : List Nat) : List (List Nat) := chunksAux l.length l

/-- SHA-256 of a byte list. -/
def sha256 (msg : List Nat) : List Nat :=
  ((chunks64 (sha256Pad msg)).foldl sha256Block sha256H0).flatMap wordToBytesBE

/-- HMAC-SHA256 (RFC 2104): keys longer than the 64-byte block are hashed
first, then zero-padded to the block size. -/
def hmacSha256 (key msg : List Nat) : List Nat :=
  let k0 := if 64 < key.length then sha256 key else key
  let kpad := k0 ++ List.replicate (64 - k0.length) 0
  sha256 ((kpad.map (fun b => b ^^^ 0x5c)) ++
          sha256 ((kpad.map (fun b => b ^^^ 0x36)) ++ msg))

/-- UTF-8 encoding of one character, as `Nat` bytes. -/
def charUtf8 (c : Char) : List Nat :=
  let n := c.toNat
  if n < 0x80 then [n]
  else if n < 0x800 then
    [0xc0 ||| (n >>> 6), 0x80 ||| (n &&& 0x3f)]
  else if n < 0x10000 then
    [0xe0 ||| (n >>> 12), 0x80 ||| ((n >>> 6) &&& 0x3f), 0x80 ||| (n &&& 0x3f)]
  else
    [0xf0 ||| (n >>> 18), 0x80 ||| ((n >>> 12) &&& 0x3f),
     0x80 ||| ((n >>> 6) &&& 0x3f), 0x80 ||| (n &&& 0x3f)]

/-- UTF-8 bytes of a string, as `Nat`s. -/
def utf8Bytes (s : String) : List Nat := s.data.flatMap charUtf8

/-- `derive_jwt_secret` from `src/main.rs`: HMAC-SHA256 keyed with the
master secret over the message `"jwt_secret:" ++ api_key`.  The Rust
version returns `Result` only because `Hmac::new_from_slice` formally can
fail; for HMAC-SHA256 every key length is accepted, so the fallible path
is dead and the derivation is total. -/
def derive_jwt_secret (api_key : String) (master_secret : List Nat) : List Nat :=
  hmacSha256 master_secret (utf8Bytes ("jwt_secret:" ++ api_key))

/-- FIPS 180-4 test vector: SHA-256 of "abc". -/
theorem sha256_vector_abc :
    sha256 (utf8Bytes "abc") =
      [186, 120, 22, 191, 143, 1, 207, 234, 65, 65, 64, 222, 93, 174, 34, 35,
       176, 3, 97, 163, 150, 23, 122, 156, 180, 16, 255, 97, 242, 0, 21, 173] := by
  decide

/-- FIPS 180-4 test vector: SHA-256 of the empty message. -/
theorem sha256_vector_empty :
    sha256 [] =
      [227, 176, 196, 66, 152, 252, 28, 20, 154, 251, 244, 200, 153, 111, 185,
       36, 39, 174, 65, 228, 100, 155, 147, 76, 164, 149, 153, 27, 120, 82,
       184, 85] := by
  decide

/-- FIPS 180-4 test vector: a 56-byte message (padding crosses into a
second block). -/
theorem sha256_vector_two_block :
    sha256 (utf8Bytes "abcdbcdecdefdefgefghfghighijhijkijkljklmklmnlmnomnopnopq") =
      [36, 141, 106, 97, 210, 6, 56, 184, 229, 192, 38, 147, 12, 62, 96, 57,
       163, 60, 228, 89, 100, 255, 33, 103, 246, 236, 237, 212, 25, 219, 6,
       193] := by
  decide

/-- RFC 4231 test case 2 for HMAC-SHA256. -/
theorem hmac_vector_rfc4231_case2 :
    hmacSha256 (utf8Bytes "Jefe") (utf8Bytes "what do ya want for nothing?") =
      [91, 220, 193, 70, 191, 96, 117, 78, 106, 4, 36, 38, 8, 149, 117, 199,
       90, 0, 63, 8, 157, 39, 57, 131, 157, 236, 88, 185, 100, 236, 56, 67] := by
  decide

/-- RFC 4231 test case 6 (key longer than the block size, so the
key-hashing branch of HMAC is exercised). -/
theorem hmac_vector_rfc4231_case6 :
    hmacSha256 (List.replicate 131 0xaa)
        (utf8Bytes "Test Using Larger Than Block-Size Key - Hash Key First") =
      [96, 228, 49, 89, 30, 224, 182, 127, 13, 138, 38, 170, 203, 245, 183,
       127, 142, 11, 198, 33, 55, 40, 197, 20, 5, 70, 4, 15, 14, 227, 127,
       84] := by
  decide

/-! ### HTTP model

Requests, responses and the oracle environment for the gateway handler in
`src/main.rs`.  Header names are stored normalized to lower case (the
underlying `http` crate treats names case-insensitively by normalizing);
header values keep their case.  Bodies are byte lists; an absent body and
an empty body are both `[]`, matching the `if !body.is_empty()` guards in
the source. -/

/-- A header map: ordered, possibly multi-valued list of (name, value). -/
abbrev Headers := List (String × String)

/-- First value of a header, as `Request::get_header_str` returns it. -/
def getHeader (name : String) (hs : Headers) : Option String :=
  (hs.find? (fun p => p.1 == name)).map (fun p => p.2)

/-- `set_header` semantics: discard every previous value of the name, then
append the new value. -/
def setHeader (name value : String) (hs : Headers) : Headers :=
  hs.filter (fun p => p.1 != name) ++ [(name, value)]

/-- An inbound client request. -/
structure HRequest where
  method : String
  path : String
  query : List (String × String)
  headers : Headers
  body : List Nat
deriving DecidableEq

/-- An outbound request built by the gateway. -/
structure OutRequest where
  method : String
  path : String
  query : List (String × String)
  headers : Headers
  body : List Nat
deriving DecidableEq

/-- An HTTP response. -/
structure HResponse where
  status : Nat
  headers : Headers
  body : List Nat
deriving DecidableEq

/-- The error classes of `jsonwebtoken::decode` the handler distinguishes
in its diagnostics (the HTTP answer must not depend on which occurred). -/
inductive JwtError where
  | invalidSignature
  | expiredSignature
  | invalidToken
  | other
deriving DecidableEq

/-- JWT claims as deserialized by the handler: `user_key` and `exp`. -/
structure JwtClaims where
  user_key : String
  exp : Nat
deriving DecidableEq

/-- Observable outbound effects of one request handling, in order. -/
inductive Event where
  | kvLookup (store key : String)
  | sendPrimary (r : OutRequest)
  | sendWatermark (r : OutRequest)
deriving DecidableEq

/-- Is the event an outbound backend call (as opposed to a config read)? -/
def isSendEvent : Event → Bool
  | .kvLookup _ _ => false
  | .sendPrimary _ => true
  | .sendWatermark _ => true

/-- The oracle environment: KV stores (values as the strings their bytes
lossily decode to), the probabilistic draw (the boolean outcome of
`random::<f64>() > 1.0 - WATERMARK_PROBABILITY`), the JWT decoder, and
the transport results of the two backends.  `Except Unit` models a
transport-level send error. -/
structure Env where
  secretsKV : String → Option String
  apiKeysKV : String → Option String
  configKV : String → Option String
  draw : Bool
  jwtDecode : String → List Nat → Except JwtError JwtClaims
  sendPrimary : OutRequest → Except Unit HResponse
  sendWatermark : OutRequest → Except Unit HResponse

/-- `StatusCode::is_success`: 2xx. -/
def isSuccess (s : Nat) : Bool := 200 ≤ s && s ≤ 299

/-- Size threshold above which a fetched segment is never watermarked. -/
def MAX_AUDIO_SEGMENT_SIZE : Nat := 500 * 1024

/-- Decode one hex digit. -/
def hexDigit (c : Char) : Option Nat :=
  if '0' ≤ c && c ≤ '9' then some (c.toNat - 48)
  else if 'a' ≤ c && c ≤ 'f' then some (c.toNat - 87)
  else if 'A' ≤ c && c ≤ 'F' then some (c.toNat - 55)
  else none

/-- `hex::decode` over a char list: even length, all hex digits. -/
def hexDecodeList : List Char → Option (List Nat)
  | [] => some []
  | [_] => none
  | c1 :: c2 :: rest =>
      match hexDigit c1, hexDigit c2, hexDecodeList rest with
      | some h, some l, some r => some ((16 * h + l) :: r)
      | _, _, _ => none

/-- `hex::decode` on a string. -/
def hexDecode (s : String) : Option (List Nat) := hexDecodeList s.data

/-- Does the first list lead the second (char-level `starts_with`)? -/
def charsLead : List Char → List Char → Bool
  | [], _ => true
  | _ :: _, [] => false
  | c :: cs, d :: ds => c == d && charsLead cs ds

/-- `str::trim` at the character level (ASCII whitespace; the values the
gateway trims are hex strings and API keys, which are ASCII). -/
def trimChars (l : List Char) : List Char :=
  ((l.dropWhile Char.isWhitespace).reverse.dropWhile Char.isWhitespace).reverse

/-- `str::trim` on a string. -/
def strTrim (s : String) : String := String.mk (trimChars s.data)

/-- Char-level `ends_with`. -/
def strEnds (s suf : String) : Bool := charsLead suf.data.reverse s.data.reverse

/-- `Authorization` header value → token, via `strip_prefix("Bearer ")`. -/
def bearerToken (h : String) : Option String :=
  if charsLead "Bearer ".data h.data then some (String.mk (h.data.drop 7)) else none

/-- First `token` query parameter, if any. -/
def queryToken (q : List (String × String)) : Option String :=
  (q.find? (fun p => p.1 == "token")).map (fun p => p.2)

/-- Token location: `Authorization: Bearer` header first, then the `token`
query parameter. -/
def tokenOf (req : HRequest) : Option String :=
  match (getHeader "authorization" req.headers).bind bearerToken with
  | some t => some t
  | none => queryToken req.query

/-- Response built by `with_body_text_plain`: plain-text content type plus
the given body. -/
def textResponse (status : Nat) (s : String) : HResponse :=
  { status := status
    headers := [("content-type", "text/plain; charset=UTF-8")]
    body := utf8Bytes s }

/-- 401 for a request with no token anywhere. -/
def missingTokenResponse : HResponse :=
  textResponse 401 "Missing authorization token.\n"

/-- 500 for missing/empty/undecodable configuration. -/
def configErrorResponse : HResponse :=
  textResponse 500 "Server configuration error.\n"

/-- 401 for any token that fails verification, identical for every
failure class. -/
def invalidJwtResponse : HResponse := textResponse 401 "Invalid JWT.\n"

/-- 500 produced at top level for internal errors that escape the
handler. -/
def internalErrorResponse : HResponse :=
  textResponse 500 "An internal error occurred.\n"

/-- Manifest classification: the three manifest/init suffixes. -/
def isManifestPath (p : String) : Bool :=
  strEnds p ".m3u8" || strEnds p ".mpd" || strEnds p ".cmfv"

/-- The fresh outbound request the gateway sends to the primary origin:
`Request::new(method, url)` plus the original body — same method, path,
query and body, and no headers at all. -/
def cleanRequest (req : HRequest) : OutRequest :=
  { method := req.method
    path := req.path
    query := req.query
    headers := []
    body := req.body }

/-- Fallback response used on every watermark-backend failure: status 200,
the original segment bytes, content type hard-coded to `video/mp4`. -/
def fallbackResponse (segBytes : List Nat) : HResponse :=
  { status := 200, headers := [("content-type", "video/mp4")], body := segBytes }

/-- Re-setting each backend header onto a fresh response, in order, with
`set_header` semantics. -/
def copyHeaders (hs : Headers) : Headers :=
  hs.foldl (fun acc p => setHeader p.1 p.2 acc) []

/-- The request the gateway builds for the watermarking backend: POST,
same path, original query plus a `user_key` parameter, octet-stream
content type, the segment bytes as body; the trimmed service API key and
a fixed Host header when the key lookup is non-empty; then any present
encoding-config values as headers. -/
def wmRequest (env : Env) (req : HRequest) (userKey : String)
    (segBytes : List Nat) : OutRequest :=
  let base : OutRequest :=
    { method := "POST"
      path := req.path
      query := req.query ++ [("user_key", userKey)]
      headers := [("content-type", "application/octet-stream")]
      body := segBytes }
  let key2 := ((env.apiKeysKV "service_api_key").getD "")
  let withKey :=
    if key2.data.isEmpty then base
    else { base with
           headers := setHeader "host" "api.stegawave.com"
                        (setHeader "x-api-key" (strTrim key2) base.headers) }
  let addCfg : OutRequest → String → String → OutRequest := fun acc kvKey hdr =>
    match env.configKV kvKey with
    | some v => { acc with headers := setHeader hdr v acc.headers }
    | none => acc
  addCfg (addCfg (addCfg (addCfg withKey "FMP4_AAC_PROFILE" "fmp4_aac_profile")
                  "FMP4_SAMPLE_RATE" "fmp4_sample_rate")
          "FMP4_CHANNELS" "fmp4_channels")
    "FMP4_TRACK_ID" "fmp4_track_id"

/-- The KV lookups performed while building the watermarking request. -/
def wmEvents : List Event :=
  [.kvLookup "api_keys" "service_api_key",
   .kvLookup "watermarking_config" "FMP4_AAC_PROFILE",
   .kvLookup "watermarking_config" "FMP4_SAMPLE_RATE",
   .kvLookup "watermarking_config" "FMP4_CHANNELS",
   .kvLookup "watermarking_config" "FMP4_TRACK_ID"]

/-- `handle_request` from `src/main.rs`, instrumented with the ordered
trace of outbound effects.  `.error ()` is an internal error that the top
level (`gateway`) converts to a generic 500. -/
def handle_request (env : Env) (req : HRequest) :
    Except Unit HResponse × List Event :=
  match tokenOf req with
  | none => (.ok missingTokenResponse, [])
  | some token =>
    let e1 : List Event := [.kvLookup "secrets" "SECRET_KEY_HEX"]
    match env.secretsKV "SECRET_KEY_HEX" with
    | none => (.ok configErrorResponse, e1)
    | some secretKeyHex =>
      if (trimChars secretKeyHex.data).isEmpty then (.ok configErrorResponse, e1)
      else
        match hexDecode (strTrim secretKeyHex) with
        | none => (.ok configErrorResponse, e1)
        | some masterSecret =>
          let e2 := e1 ++ [Event.kvLookup "api_keys" "service_api_key"]
          match env.apiKeysKV "service_api_key" with
          | none => (.ok configErrorResponse, e2)
          | some serviceApiKey =>
            if (trimChars serviceApiKey.data).isEmpty then (.ok configErrorResponse, e2)
            else
              match env.jwtDecode token
                      (derive_jwt_secret serviceApiKey masterSecret) with
              | .error _ => (.ok invalidJwtResponse, e2)
              | .ok claims =>
                if isManifestPath req.path then
                  let e3 := e2 ++ [Event.sendPrimary (cleanRequest req)]
                  match env.sendPrimary (cleanRequest req) with
                  | .error u => (.error u, e3)
                  | .ok resp => (.ok resp, e3)
                else if env.draw then
                  let e3 := e2 ++ [Event.sendPrimary (cleanRequest req)]
                  match env.sendPrimary (cleanRequest req) with
                  | .error u => (.error u, e3)
                  | .ok origResp =>
                    if !(isSuccess origResp.status) then (.ok origResp, e3)
                    else if MAX_AUDIO_SEGMENT_SIZE < origResp.body.length then
                      (.ok { status := 200, headers := [], body := origResp.body }, e3)
                    else
                      let wreq := wmRequest env req claims.user_key origResp.body
                      let e4 := e3 ++ wmEvents ++ [Event.sendWatermark wreq]
                      match env.sendWatermark wreq with
                      | .error _ => (.ok (fallbackResponse origResp.body), e4)
                      | .ok wresp =>
                        if wresp.body.isEmpty then
                          (.ok (fallbackResponse origResp.body), e4)
                        else if isSuccess wresp.status then
                          (.ok { status := wresp.status
                                 headers := copyHeaders wresp.headers
                                 body := wresp.body }, e4)
                        else (.ok (fallbackResponse origResp.body), e4)
                else
                  let e3 := e2 ++ [Event.sendPrimary (cleanRequest req)]
                  match env.sendPrimary (cleanRequest req) with
                  | .error u => (.error u, e3)
                  | .ok resp => (.ok resp, e3)

/-- The fixed answer to a CORS preflight. -/
def corsPreflight : HResponse :=
  { status := 200
    headers := [("access-control-allow-origin", "*"),
                ("access-control-allow-methods", "GET, HEAD, POST, OPTIONS"),
                ("access-control-allow-headers", "Content-Type, Authorization, X-API-Key")]
    body := [] }

/-- The `main` entry point: OPTIONS short-circuit, then `handle_request`
with internal errors mapped to a generic 500, and finally the wildcard
CORS allow-origin header set on every non-preflight response. -/
def gateway (env : Env) (req : HRequest) : HResponse × List Event :=
  if req.method == "OPTIONS" then (corsPreflight, [])
  else
    match handle_request env req with
    | (.ok r, tr) =>
        ({ r with headers := setHeader "access-control-allow-origin" "*" r.headers }, tr)
    | (.error _, tr) =>
        ({ internalErrorResponse with
           headers := setHeader "access-control-allow-origin" "*"
                        internalErrorResponse.headers }, tr)

/-! ### Auxiliary predicates for the claims -/

/-- Token verification completed successfully: a token was located, the
master secret and service API key were read, and `jsonwebtoken::decode`
accepted the token under the derived key. -/
def authSucceeded (env : Env) (req : HRequest) : Prop :=
  ∃ t hex ms ak c,
    tokenOf req = some t ∧
    env.secretsKV "SECRET_KEY_HEX" = some hex ∧
    hexDecode (strTrim hex) = some ms ∧
    env.apiKeysKV "service_api_key" = some ak ∧
    env.jwtDecode t (derive_jwt_secret ak ms) = Except.ok c

/-- Remove every value of one header name. -/
def eraseHeaderAll (name : String) (hs : Headers) : Headers :=
  hs.filter (fun p => p.1 != name)

/-! ### Claim theorems -/

/-- **C4.** `derive_jwt_secret` is deterministic (identical inputs give
identical output bytes) and side-effect-free (it is a pure function of its
two arguments), and its result is exactly HMAC-SHA256 keyed with the
master secret over the message `"jwt_secret:"` concatenated with the raw
client API key. -/
theorem derive_deterministic_and_hmac
    (k₁ k₂ : String) (s₁ s₂ : List Nat) (hk : k₁ = k₂) (hs : s₁ = s₂) :
    derive_jwt_secret k₁ s₁ = derive_jwt_secret k₂ s₂ ∧
    derive_jwt_secret k₁ s₁ = hmacSha256 s₁ (utf8Bytes ("jwt_secret:" ++ k₁)) := by
  subst hk
  subst hs
  exact ⟨rfl, rfl⟩

/-- Witness for C4 at a concrete key and secret. -/
theorem derive_deterministic_and_hmac_witness :
    derive_jwt_secret "k" [170] = derive_jwt_secret "k" [170] ∧
    derive_jwt_secret "k" [170] = hmacSha256 [170] (utf8Bytes ("jwt_secret:" ++ "k")) :=
  derive_deterministic_and_hmac "k" "k" [170] [170] rfl rfl

/-- **C5.** Whatever failure class `jsonwebtoken::decode` reports, the
client-visible response is the same fixed 401 with the generic body
`"Invalid JWT.\n"`: the right-hand side below does not mention the error
value, so every failure class produces the identical response and nothing
about the failing check leaks to the client. -/
theorem invalid_jwt_uniform_401
    (env : Env) (req : HRequest) (t hex : String) (ms : List Nat)
    (ak : String) (e : JwtError)
    (hm : req.method ≠ "OPTIONS")
    (ht : tokenOf req = some t)
    (hsec : env.secretsKV "SECRET_KEY_HEX" = some hex)
    (htr : (trimChars hex.data).isEmpty = false)
    (hhex : hexDecode (strTrim hex) = some ms)
    (hapi : env.apiKeysKV "service_api_key" = some ak)
    (htr2 : (trimChars ak.data).isEmpty = false)
    (hjwt : env.jwtDecode t (derive_jwt_secret ak ms) = Except.error e) :
    (gateway env req).1 =
      { status := 401
        headers := setHeader "access-control-allow-origin" "*"
                     invalidJwtResponse.headers
        body := utf8Bytes "Invalid JWT.\n" } := by
  have hm' : (req.method == "OPTIONS") = false := by
    simpa using hm
  simp [gateway, handle_request, hm', ht, hsec, htr, hhex, hapi, htr2, hjwt,
        invalidJwtResponse, textResponse]

/-- Witness for C5: a concrete environment whose decoder rejects with an
expired-signature error yields the 401. -/
theorem invalid_jwt_uniform_401_witness :
    (gateway
        { secretsKV := fun _ => some "aa"
          apiKeysKV := fun _ => some "key1"
          configKV := fun _ => none
          draw := false
          jwtDecode := fun _ _ => Except.error JwtError.expiredSignature
          sendPrimary := fun _ => Except.ok ⟨200, [], []⟩
          sendWatermark := fun _ => Except.ok ⟨200, [], []⟩ }
        ⟨"GET", "/a.m4s", [("token", "tok")], [], []⟩).1 =
      { status := 401
        headers := setHeader "access-control-allow-origin" "*"
                     invalidJwtResponse.headers
        body := utf8Bytes "Invalid JWT.\n" } :=
  invalid_jwt_uniform_401 _ _ "tok" "aa" [170] "key1" JwtError.expiredSignature
    (by decide) (by decide) (by decide) (by decide) (by decide) (by decide)
    (by decide) rfl

/-- **C1.** If an authenticated segment request is selected for
watermarking, the origin fetch succeeds with a body within the size
threshold, and the watermarking call fails in any of the three modes
(transport error, empty body regardless of status, or non-success status
with non-empty body), then the client sees status 200 with exactly the
original segment bytes. -/
theorem watermark_failure_fallback
    (env : Env) (req : HRequest) (t hex : String) (ms : List Nat) (ak : String)
    (c : JwtClaims) (orig : HResponse)
    (hm : req.method ≠ "OPTIONS")
    (ht : tokenOf req = some t)
    (hsec : env.secretsKV "SECRET_KEY_HEX" = some hex)
    (htr : (trimChars hex.data).isEmpty = false)
    (hhex : hexDecode (strTrim hex) = some ms)
    (hapi : env.apiKeysKV "service_api_key" = some ak)
    (htr2 : (trimChars ak.data).isEmpty = false)
    (hjwt : env.jwtDecode t (derive_jwt_secret ak ms) = Except.ok c)
    (hman : isManifestPath req.path = false)
    (hdraw : env.draw = true)
    (hsp : env.sendPrimary (cleanRequest req) = Except.ok orig)
    (hss : isSuccess orig.status = true)
    (hsize : ¬ (MAX_AUDIO_SEGMENT_SIZE < orig.body.length))
    (hfail :
      env.sendWatermark (wmRequest env req c.user_key orig.body) = Except.error () ∨
      (∃ w, env.sendWatermark (wmRequest env req c.user_key orig.body) = Except.ok w ∧
            w.body = []) ∨
      (∃ w, env.sendWatermark (wmRequest env req c.user_key orig.body) = Except.ok w ∧
            isSuccess w.status = false ∧ w.body ≠ [])) :
    (gateway env req).1.status = 200 ∧ (gateway env req).1.body = orig.body := by
  have hm' : (req.method == "OPTIONS") = false := by simpa using hm
  rcases hfail with hf | ⟨w, hf, hwb⟩ | ⟨w, hf, hws, hwb⟩
  · simp [gateway, handle_request, hm', ht, hsec, htr, hhex, hapi, htr2, hjwt,
          hman, hdraw, hsp, hss, hsize, hf, fallbackResponse]
  · simp [gateway, handle_request, hm', ht, hsec, htr, hhex, hapi, htr2, hjwt,
          hman, hdraw, hsp, hss, hsize, hf, hwb, fallbackResponse]
  · have hwb' : w.body.isEmpty = false := by
      cases hb : w.body <;> simp_all
    simp [gateway, handle_request, hm', ht, hsec, htr, hhex, hapi, htr2, hjwt,
          hman, hdraw, hsp, hss, hsize, hf, hwb', hws, fallbackResponse]

/-- Witness for C1: transport failure of the watermark backend on a
3-byte segment falls back to those 3 bytes with status 200. -/
theorem watermark_failure_fallback_witness :
    (gateway
        { secretsKV := fun _ => some "aa"
          apiKeysKV := fun _ => some "key1"
          configKV := fun _ => none
          draw := true
          jwtDecode := fun _ _ => Except.ok ⟨"u1", 99⟩
          sendPrimary := fun _ => Except.ok ⟨200, [], [1, 2, 3]⟩
          sendWatermark := fun _ => Except.error () }
        ⟨"GET", "/a.m4s", [("token", "tok")], [], []⟩).1.status = 200 ∧
    (gateway
        { secretsKV := fun _ => some "aa"
          apiKeysKV := fun _ => some "key1"
          configKV := fun _ => none
          draw := true
          jwtDecode := fun _ _ => Except.ok ⟨"u1", 99⟩
          sendPrimary := fun _ => Except.ok ⟨200, [], [1, 2, 3]⟩
          sendWatermark := fun _ => Except.error () }
        ⟨"GET", "/a.m4s", [("token", "tok")], [], []⟩).1.body = [1, 2, 3] :=
  watermark_failure_fallback _ _ "tok" "aa" [170] "key1" ⟨"u1", 99⟩ ⟨200, [], [1, 2, 3]⟩
    (by decide) (by decide) (by decide) (by decide) (by decide) (by decide)
    (by decide) rfl (by decide) rfl rfl (by decide) (by decide) (Or.inl rfl)

/-- **C8, counterexample.** The fallback does not carry the fetched
segment's media type: here the origin labels the segment `audio/mp4`, the
watermark backend fails by transport error, and the fallback response says
`video/mp4`. -/
theorem fallback_content_type_counterexample :
    (({ secretsKV := fun _ => some "aa"
        apiKeysKV := fun _ => some "key1"
        configKV := fun _ => none
        draw := true
        jwtDecode := fun _ _ => Except.ok ⟨"u1", 99⟩
        sendPrimary := fun _ =>
          Except.ok ⟨200, [("content-type", "audio/mp4")], [1]⟩
        sendWatermark := fun _ => Except.error () } : Env).sendPrimary
      (cleanRequest ⟨"GET", "/a.m4s", [("token", "tok")], [], []⟩) =
        Except.ok ⟨200, [("content-type", "audio/mp4")], [1]⟩) ∧
    getHeader "content-type"
        (gateway
          { secretsKV := fun _ => some "aa"
            apiKeysKV := fun _ => some "key1"
            configKV := fun _ => none
            draw := true
            jwtDecode := fun _ _ => Except.ok ⟨"u1", 99⟩
            sendPrimary := fun _ =>
              Except.ok ⟨200, [("content-type", "audio/mp4")], [1]⟩
            sendWatermark := fun _ => Except.error () }
          ⟨"GET", "/a.m4s", [("token", "tok")], [], []⟩).1.headers =
      some "video/mp4" ∧
    getHeader "content-type"
        (gateway
          { secretsKV := fun _ => some "aa"
            apiKeysKV := fun _ => some "key1"
            configKV := fun _ => none
            draw := true
            jwtDecode := fun _ _ => Except.ok ⟨"u1", 99⟩
            sendPrimary := fun _ =>
              Except.ok ⟨200, [("content-type", "audio/mp4")], [1]⟩
            sendWatermark := fun _ => Except.error () }
          ⟨"GET", "/a.m4s", [("token", "tok")], [], []⟩).1.headers ≠
      some "audio/mp4" :=
  ⟨rfl, by decide, by decide⟩

/-- **C8, amended.** On every watermark-backend failure mode the fallback
response's Content-Type is forced to the fixed value `video/mp4`,
regardless of the content type the origin supplied for the fetched
segment. -/
theorem fallback_content_type_video_mp4
    (env : Env) (req : HRequest) (t hex : String) (ms : List Nat) (ak : String)
    (c : JwtClaims) (orig : HResponse)
    (hm : req.method ≠ "OPTIONS")
    (ht : tokenOf req = some t)
    (hsec : env.secretsKV "SECRET_KEY_HEX" = some hex)
    (htr : (trimChars hex.data).isEmpty = false)
    (hhex : hexDecode (strTrim hex) = some ms)
    (hapi : env.apiKeysKV "service_api_key" = some ak)
    (htr2 : (trimChars ak.data).isEmpty = false)
    (hjwt : env.jwtDecode t (derive_jwt_secret ak ms) = Except.ok c)
    (hman : isManifestPath req.path = false)
    (hdraw : env.draw = true)
    (hsp : env.sendPrimary (cleanRequest req) = Except.ok orig)
    (hss : isSuccess orig.status = true)
    (hsize : ¬ (MAX_AUDIO_SEGMENT_SIZE < orig.body.length))
    (hfail :
      env.sendWatermark (wmRequest env req c.user_key orig.body) = Except.error () ∨
      (∃ w, env.sendWatermark (wmRequest env req c.user_key orig.body) = Except.ok w ∧
            w.body = []) ∨
      (∃ w, env.sendWatermark (wmRequest env req c.user_key orig.body) = Except.ok w ∧
            isSuccess w.status = false ∧ w.body ≠ [])) :
    getHeader "content-type" (gateway env req).1.headers = some "video/mp4" := by
  have hm' : (req.method == "OPTIONS") = false := by simpa using hm
  rcases hfail with hf | ⟨w, hf, hwb⟩ | ⟨w, hf, hws, hwb⟩
  · simp [gateway, handle_request, hm', ht, hsec, htr, hhex, hapi, htr2, hjwt,
          hman, hdraw, hsp, hss, hsize, hf, fallbackResponse, setHeader,
          getHeader]
  · simp [gateway, handle_request, hm', ht, hsec, htr, hhex, hapi, htr2, hjwt,
          hman, hdraw, hsp, hss, hsize, hf, hwb, fallbackResponse, setHeader,
          getHeader]
  · have hwb' : w.body.isEmpty = false := by
      cases hb : w.body <;> simp_all
    simp [gateway, handle_request, hm', ht, hsec, htr, hhex, hapi, htr2, hjwt,
          hman, hdraw, hsp, hss, hsize, hf, hwb', hws, fallbackResponse,
          setHeader, getHeader]

/-- Witness for the amended C8: an empty-body 500 from the watermark
backend yields a fallback labelled `video/mp4`. -/
theorem fallback_content_type_video_mp4_witness :
    getHeader "content-type"
        (gateway
          { secretsKV := fun _ => some "aa"
            apiKeysKV := fun _ => some "key1"
            configKV := fun _ => none
            draw := true
            jwtDecode := fun _ _ => Except.ok ⟨"u1", 99⟩
            sendPrimary := fun _ =>
              Except.ok ⟨200, [("content-type", "audio/mp4")], [1]⟩
            sendWatermark := fun _ => Except.ok ⟨500, [], []⟩ }
          ⟨"GET", "/a.m4s", [("token", "tok")], [], []⟩).1.headers =
      some "video/mp4" :=
  fallback_content_type_video_mp4 _ _ "tok" "aa" [170] "key1" ⟨"u1", 99⟩
    ⟨200, [("content-type", "audio/mp4")], [1]⟩
    (by decide) (by decide) (by decide) (by decide) (by decide) (by decide)
    (by decide) rfl (by decide) rfl rfl (by decide) (by decide)
    (Or.inr (Or.inl ⟨⟨500, [], []⟩, rfl, rfl⟩))

/-- **C6.** If the fetched original segment exceeds the 500 KiB threshold,
no request is ever sent to the watermarking backend — whatever the
watermark-probability draw — and, when the draw selected the segment for
watermarking, it is returned unmodified with status 200. -/
theorem oversized_segment_never_watermarked
    (env : Env) (req : HRequest) (t hex : String) (ms : List Nat) (ak : String)
    (c : JwtClaims) (orig : HResponse)
    (hm : req.method ≠ "OPTIONS")
    (ht : tokenOf req = some t)
    (hsec : env.secretsKV "SECRET_KEY_HEX" = some hex)
    (htr : (trimChars hex.data).isEmpty = false)
    (hhex : hexDecode (strTrim hex) = some ms)
    (hapi : env.apiKeysKV "service_api_key" = some ak)
    (htr2 : (trimChars ak.data).isEmpty = false)
    (hjwt : env.jwtDecode t (derive_jwt_secret ak ms) = Except.ok c)
    (hman : isManifestPath req.path = false)
    (hsp : env.sendPrimary (cleanRequest req) = Except.ok orig)
    (hss : isSuccess orig.status = true)
    (hbig : MAX_AUDIO_SEGMENT_SIZE < orig.body.length) :
    (∀ r, Event.sendWatermark r ∉ (gateway env req).2) ∧
    (env.draw = true →
      (gateway env req).1.status = 200 ∧ (gateway env req).1.body = orig.body) := by
  have hm' : (req.method == "OPTIONS") = false := by simpa using hm
  constructor
  · intro r
    cases hd : env.draw
    · simp [gateway, handle_request, hm', ht, hsec, htr, hhex, hapi, htr2,
            hjwt, hman, hd, hsp]
    · simp [gateway, handle_request, hm', ht, hsec, htr, hhex, hapi, htr2,
            hjwt, hman, hd, hsp, hss, hbig]
  · intro hd
    simp [gateway, handle_request, hm', ht, hsec, htr, hhex, hapi, htr2,
          hjwt, hman, hd, hsp, hss, hbig]

/-- Witness for C6 on a segment one byte over the threshold: no watermark
call appears in the trace and the body comes back untouched. -/
theorem oversized_segment_never_watermarked_witness :
    (∀ r, Event.sendWatermark r ∉
      (gateway
        { secretsKV := fun _ => some "aa"
          apiKeysKV := fun _ => some "key1"
          configKV := fun _ => none
          draw := true
          jwtDecode := fun _ _ => Except.ok ⟨"u1", 99⟩
          sendPrimary := fun _ =>
            Except.ok ⟨200, [], List.replicate (500 * 1024 + 1) 7⟩
          sendWatermark := fun _ => Except.error () }
        ⟨"GET", "/a.m4s", [("token", "tok")], [], []⟩).2) ∧
    ((gateway
        { secretsKV := fun _ => some "aa"
          apiKeysKV := fun _ => some "key1"
          configKV := fun _ => none
          draw := true
          jwtDecode := fun _ _ => Except.ok ⟨"u1", 99⟩
          sendPrimary := fun _ =>
            Except.ok ⟨200, [], List.replicate (500 * 1024 + 1) 7⟩
          sendWatermark := fun _ => Except.error () }
        ⟨"GET", "/a.m4s", [("token", "tok")], [], []⟩).1.status = 200 ∧
     (gateway
        { secretsKV := fun _ => some "aa"
          apiKeysKV := fun _ => some "key1"
          configKV := fun _ => none
          draw := true
          jwtDecode := fun _ _ => Except.ok ⟨"u1", 99⟩
          sendPrimary := fun _ =>
            Except.ok ⟨200, [], List.replicate (500 * 1024 + 1) 7⟩
          sendWatermark := fun _ => Except.error () }
        ⟨"GET", "/a.m4s", [("token", "tok")], [], []⟩).1.body =
       List.replicate (500 * 1024 + 1) 7) := by
  have h := oversized_segment_never_watermarked
    { secretsKV := fun _ => some "aa"
      apiKeysKV := fun _ => some "key1"
      configKV := fun _ => none
      draw := true
      jwtDecode := fun _ _ => Except.ok ⟨"u1", 99⟩
      sendPrimary := fun _ =>
        Except.ok ⟨200, [], List.replicate (500 * 1024 + 1) 7⟩
      sendWatermark := fun _ => Except.error () }
    ⟨"GET", "/a.m4s", [("token", "tok")], [], []⟩
    "tok" "aa" [170] "key1" ⟨"u1", 99⟩ ⟨200, [], List.replicate (500 * 1024 + 1) 7⟩
    (by decide) (by decide) (by decide) (by decide) (by decide) (by decide)
    (by decide) rfl (by decide) rfl rfl
    (by
      show MAX_AUDIO_SEGMENT_SIZE < (List.replicate (500 * 1024 + 1) 7).length
      rw [List.length_replicate]
      decide)
  exact ⟨h.1, h.2 rfl⟩

/-- **C7.** The route classifier calls a path a manifest exactly when it
ends in one of the three fixed suffixes; an authenticated manifest request
is answered identically for every value of the watermark draw (it never
reaches the watermark decision), and the only backend call is to the
primary origin with method, path, query and body unchanged. -/
theorem manifest_pass_through
    (env : Env) (req : HRequest) (t hex : String) (ms : List Nat) (ak : String)
    (c : JwtClaims)
    (hm : req.method ≠ "OPTIONS")
    (ht : tokenOf req = some t)
    (hsec : env.secretsKV "SECRET_KEY_HEX" = some hex)
    (htr : (trimChars hex.data).isEmpty = false)
    (hhex : hexDecode (strTrim hex) = some ms)
    (hapi : env.apiKeysKV "service_api_key" = some ak)
    (htr2 : (trimChars ak.data).isEmpty = false)
    (hjwt : env.jwtDecode t (derive_jwt_secret ak ms) = Except.ok c)
    (hman : isManifestPath req.path = true) :
    (∀ p : String,
      isManifestPath p =
        (strEnds p ".m3u8" || strEnds p ".mpd" || strEnds p ".cmfv")) ∧
    (∀ d : Bool, gateway { env with draw := d } req = gateway env req) ∧
    (gateway env req).2 =
      [Event.kvLookup "secrets" "SECRET_KEY_HEX",
       Event.kvLookup "api_keys" "service_api_key",
       Event.sendPrimary (cleanRequest req)] ∧
    (cleanRequest req).method = req.method ∧
    (cleanRequest req).path = req.path ∧
    (cleanRequest req).query = req.query ∧
    (cleanRequest req).body = req.body := by
  have hm' : (req.method == "OPTIONS") = false := by simpa using hm
  refine ⟨fun p => rfl, ?_, ?_, rfl, rfl, rfl, rfl⟩
  · intro d
    simp [gateway, handle_request, hm', ht, hsec, htr, hhex, hapi, htr2,
          hjwt, hman]
  · cases hsp : env.sendPrimary (cleanRequest req) with
    | error u =>
        simp [gateway, handle_request, hm', ht, hsec, htr, hhex, hapi, htr2,
              hjwt, hman, hsp]
    | ok r =>
        simp [gateway, handle_request, hm', ht, hsec, htr, hhex, hapi, htr2,
              hjwt, hman, hsp]

/-- Witness for C7 at a concrete `.m3u8` request. -/
theorem manifest_pass_through_witness :
    (gateway
        { secretsKV := fun _ => some "aa"
          apiKeysKV := fun _ => some "key1"
          configKV := fun _ => none
          draw := false
          jwtDecode := fun _ _ => Except.ok ⟨"u1", 99⟩
          sendPrimary := fun _ => Except.ok ⟨200, [], [5]⟩
          sendWatermark := fun _ => Except.error () }
        ⟨"GET", "/p/master.m3u8", [("token", "tok")], [("x-api-key", "z")], []⟩).2 =
      [Event.kvLookup "secrets" "SECRET_KEY_HEX",
       Event.kvLookup "api_keys" "service_api_key",
       Event.sendPrimary (cleanRequest
         ⟨"GET", "/p/master.m3u8", [("token", "tok")], [("x-api-key", "z")], []⟩)] :=
  (manifest_pass_through
    { secretsKV := fun _ => some "aa"
      apiKeysKV := fun _ => some "key1"
      configKV := fun _ => none
      draw := false
      jwtDecode := fun _ _ => Except.ok ⟨"u1", 99⟩
      sendPrimary := fun _ => Except.ok ⟨200, [], [5]⟩
      sendWatermark := fun _ => Except.error () }
    ⟨"GET", "/p/master.m3u8", [("token", "tok")], [("x-api-key", "z")], []⟩
    "tok" "aa" [170] "key1" ⟨"u1", 99⟩
    (by decide) (by decide) (by decide) (by decide) (by decide) (by decide)
    (by decide) rfl (by decide)).2.2.1

/-- A pair whose name differs from the one being set survives
`setHeader`. -/
theorem mem_setHeader_of_ne (n v m w : String) (acc : Headers)
    (hmem : (n, v) ∈ acc) (hne : n ≠ m) : (n, v) ∈ setHeader m w acc := by
  unfold setHeader
  refine List.mem_append_left _ (List.mem_filter.mpr ⟨hmem, ?_⟩)
  simpa using hne

/-- A pair whose name never occurs in the remaining headers survives
re-setting all of them. -/
theorem mem_foldl_setHeader_of_absent (hs : Headers) (n v : String)
    (habs : n ∉ hs.map Prod.fst) :
    ∀ acc, (n, v) ∈ acc →
      (n, v) ∈ hs.foldl (fun acc p => setHeader p.1 p.2 acc) acc := by
  induction hs with
  | nil => intro acc hmem; simpa using hmem
  | cons q rest ih =>
      intro acc hmem
      simp only [List.map_cons, List.mem_cons, not_or] at habs
      simp only [List.foldl_cons]
      exact ih habs.2 _ (mem_setHeader_of_ne n v q.1 q.2 acc hmem habs.1)

/-- When every header name occurs once, re-setting all headers onto any
accumulator retains each of them. -/
theorem mem_foldl_setHeader (hs : Headers) :
    ∀ acc, (hs.map Prod.fst).Nodup →
      ∀ p ∈ hs, p ∈ hs.foldl (fun acc q => setHeader q.1 q.2 acc) acc := by
  induction hs with
  | nil => intro acc _ p hp; simp at hp
  | cons q rest ih =>
      intro acc hnd p hp
      simp only [List.map_cons, List.nodup_cons] at hnd
      simp only [List.foldl_cons]
      rcases List.mem_cons.mp hp with hq | hrest
      · subst hq
        refine mem_foldl_setHeader_of_absent rest p.1 p.2 hnd.1 _ ?_
        unfold setHeader
        exact List.mem_append_right _ (by simp)
      · exact ih _ hnd.2 p hrest

/-- Every distinct-name header ends up in `copyHeaders`. -/
theorem mem_copyHeaders (hs : Headers) (hnd : (hs.map Prod.fst).Nodup) :
    ∀ p ∈ hs, p ∈ copyHeaders hs :=
  mem_foldl_setHeader hs [] hnd

/-- **C2, counterexample.** The claim fails when the backend sends two
values for one header name: the success path re-sets each backend header
with `set_header`, so only the last value of a repeated name survives, and
the earlier header the backend set is absent from the client response. -/
theorem backend_header_dropped_counterexample :
    ("x-wm", "1") ∈
      ([("x-wm", "1"), ("x-wm", "2")] : Headers) ∧
    isSuccess 200 = true ∧
    ([9] : List Nat) ≠ [] ∧
    ("x-wm", "1") ∉
      (gateway
        { secretsKV := fun _ => some "aa"
          apiKeysKV := fun _ => some "key1"
          configKV := fun _ => none
          draw := true
          jwtDecode := fun _ _ => Except.ok ⟨"u1", 99⟩
          sendPrimary := fun _ => Except.ok ⟨200, [], [1]⟩
          sendWatermark := fun _ =>
            Except.ok ⟨200, [("x-wm", "1"), ("x-wm", "2")], [9]⟩ }
        ⟨"GET", "/a.m4s", [("token", "tok")], [], []⟩).1.headers := by
  decide

/-- **C2, amended.** When the watermarking backend answers with a success
status and a non-empty body, the client response carries that body
verbatim and the backend's status code; and every header the backend set
is present, provided the backend set each header name at most once and did
not itself set the CORS allow-origin header (a repeated name retains only
its last value, and the gateway unconditionally overwrites
`access-control-allow-origin` with `*`). -/
theorem watermark_success_pass_through
    (env : Env) (req : HRequest) (t hex : String) (ms : List Nat) (ak : String)
    (c : JwtClaims) (orig w : HResponse)
    (hm : req.method ≠ "OPTIONS")
    (ht : tokenOf req = some t)
    (hsec : env.secretsKV "SECRET_KEY_HEX" = some hex)
    (htr : (trimChars hex.data).isEmpty = false)
    (hhex : hexDecode (strTrim hex) = some ms)
    (hapi : env.apiKeysKV "service_api_key" = some ak)
    (htr2 : (trimChars ak.data).isEmpty = false)
    (hjwt : env.jwtDecode t (derive_jwt_secret ak ms) = Except.ok c)
    (hman : isManifestPath req.path = false)
    (hdraw : env.draw = true)
    (hsp : env.sendPrimary (cleanRequest req) = Except.ok orig)
    (hss : isSuccess orig.status = true)
    (hsize : ¬ (MAX_AUDIO_SEGMENT_SIZE < orig.body.length))
    (hwm : env.sendWatermark (wmRequest env req c.user_key orig.body) = Except.ok w)
    (hws : isSuccess w.status = true)
    (hwb : w.body ≠ [])
    (hnd : (w.headers.map Prod.fst).Nodup)
    (hcors : "access-control-allow-origin" ∉ w.headers.map Prod.fst) :
    (gateway env req).1.status = w.status ∧
    (gateway env req).1.body = w.body ∧
    ∀ p ∈ w.headers, p ∈ (gateway env req).1.headers := by
  have hm' : (req.method == "OPTIONS") = false := by simpa using hm
  have hwb' : w.body.isEmpty = false := by
    cases hb : w.body <;> simp_all
  have hred : (gateway env req).1 =
      { status := w.status
        headers := setHeader "access-control-allow-origin" "*"
                     (copyHeaders w.headers)
        body := w.body } := by
    simp [gateway, handle_request, hm', ht, hsec, htr, hhex, hapi, htr2,
          hjwt, hman, hdraw, hsp, hss, hsize, hwm, hwb', hws]
  rw [hred]
  refine ⟨rfl, rfl, ?_⟩
  intro p hp
  have h1 : p ∈ copyHeaders w.headers := mem_copyHeaders w.headers hnd p hp
  have hne : p.1 ≠ "access-control-allow-origin" := by
    intro hh
    exact hcors (hh ▸ List.mem_map_of_mem Prod.fst hp)
  exact mem_setHeader_of_ne p.1 p.2 _ _ _ h1 hne

/-- Witness for the amended C2: a 201 backend answer with two distinct
headers and body `[9]` is passed through with both headers present. -/
theorem watermark_success_pass_through_witness :
    (gateway
        { secretsKV := fun _ => some "aa"
          apiKeysKV := fun _ => some "key1"
          configKV := fun _ => none
          draw := true
          jwtDecode := fun _ _ => Except.ok ⟨"u1", 99⟩
          sendPrimary := fun _ => Except.ok ⟨200, [], [1]⟩
          sendWatermark := fun _ =>
            Except.ok ⟨201, [("x-wm", "1"), ("etag", "e1")], [9]⟩ }
        ⟨"GET", "/a.m4s", [("token", "tok")], [], []⟩).1.status = 201 ∧
    (gateway
        { secretsKV := fun _ => some "aa"
          apiKeysKV := fun _ => some "key1"
          configKV := fun _ => none
          draw := true
          jwtDecode := fun _ _ => Except.ok ⟨"u1", 99⟩
          sendPrimary := fun _ => Except.ok ⟨200, [], [1]⟩
          sendWatermark := fun _ =>
            Except.ok ⟨201, [("x-wm", "1"), ("etag", "e1")], [9]⟩ }
        ⟨"GET", "/a.m4s", [("token", "tok")], [], []⟩).1.body = [9] ∧
    ∀ p ∈ ([("x-wm", "1"), ("etag", "e1")] : Headers),
      p ∈ (gateway
        { secretsKV := fun _ => some "aa"
          apiKeysKV := fun _ => some "key1"
          configKV := fun _ => none
          draw := true
          jwtDecode := fun _ _ => Except.ok ⟨"u1", 99⟩
          sendPrimary := fun _ => Except.ok ⟨200, [], [1]⟩
          sendWatermark := fun _ =>
            Except.ok ⟨201, [("x-wm", "1"), ("etag", "e1")], [9]⟩ }
        ⟨"GET", "/a.m4s", [("token", "tok")], [], []⟩).1.headers :=
  watermark_success_pass_through
    { secretsKV := fun _ => some "aa"
      apiKeysKV := fun _ => some "key1"
      configKV := fun _ => none
      draw := true
      jwtDecode := fun _ _ => Except.ok ⟨"u1", 99⟩
      sendPrimary := fun _ => Except.ok ⟨200, [], [1]⟩
      sendWatermark := fun _ =>
        Except.ok ⟨201, [("x-wm", "1"), ("etag", "e1")], [9]⟩ }
    ⟨"GET", "/a.m4s", [("token", "tok")], [], []⟩
    "tok" "aa" [170] "key1" ⟨"u1", 99⟩ ⟨200, [], [1]⟩
    ⟨201, [("x-wm", "1"), ("etag", "e1")], [9]⟩
    (by decide) (by decide) (by decide) (by decide) (by decide) (by decide)
    (by decide) rfl (by decide) rfl rfl (by decide) (by decide) rfl
    (by decide) (by decide) (by decide) (by decide)

/-- Outside the preflight short-circuit, the gateway's effect trace is the
handler's effect trace. -/
theorem gateway_trace (env : Env) (req : HRequest)
    (hm : (req.method == "OPTIONS") = false) :
    (gateway env req).2 = (handle_request env req).2 := by
  rcases hh : handle_request env req with ⟨res, tr⟩
  cases res <;> simp [gateway, hm, hh]

/-- Master case analysis of the handler's effect trace: every outbound
backend call happens only after token verification succeeded, and every
primary-origin call carries exactly the stripped clean request. -/
theorem handle_request_send_events (env : Env) (req : HRequest) :
    ∀ e ∈ (handle_request env req).2,
      (isSendEvent e = true → authSucceeded env req) ∧
      (∀ r, e = Event.sendPrimary r → r = cleanRequest req) := by
  intro e he
  unfold handle_request at he
  cases h1 : tokenOf req with
  | none => simp [h1] at he
  | some t =>
  simp only [h1] at he
  cases h2 : env.secretsKV "SECRET_KEY_HEX" with
  | none =>
    simp [h2] at he
    subst he
    exact ⟨fun hs => Bool.noConfusion hs, fun r hr => Event.noConfusion hr⟩
  | some hexv =>
  simp only [h2] at he
  cases h3 : (trimChars hexv.data).isEmpty with
  | true =>
    simp [h3] at he
    subst he
    exact ⟨fun hs => Bool.noConfusion hs, fun r hr => Event.noConfusion hr⟩
  | false =>
  simp only [h3, Bool.false_eq_true, if_false] at he
  cases h4 : hexDecode (strTrim hexv) with
  | none =>
    simp [h4] at he
    subst he
    exact ⟨fun hs => Bool.noConfusion hs, fun r hr => Event.noConfusion hr⟩
  | some msv =>
  simp only [h4] at he
  cases h5 : env.apiKeysKV "service_api_key" with
  | none =>
    simp [h5] at he
    rcases he with rfl | rfl <;>
      exact ⟨fun hs => Bool.noConfusion hs, fun r hr => Event.noConfusion hr⟩
  | some akv =>
  simp only [h5] at he
  cases h6 : (trimChars akv.data).isEmpty with
  | true =>
    simp [h6] at he
    rcases he with rfl | rfl <;>
      exact ⟨fun hs => Bool.noConfusion hs, fun r hr => Event.noConfusion hr⟩
  | false =>
  simp only [h6, Bool.false_eq_true, if_false] at he
  cases h7 : env.jwtDecode t (derive_jwt_secret akv msv) with
  | error err =>
    simp [h7] at he
    rcases he with rfl | rfl <;>
      exact ⟨fun hs => Bool.noConfusion hs, fun r hr => Event.noConfusion hr⟩
  | ok c =>
  simp only [h7] at he
  have ha : authSucceeded env req := ⟨t, hexv, msv, akv, c, h1, h2, h4, h5, h7⟩
  cases h8 : isManifestPath req.path with
  | true =>
    cases h9 : env.sendPrimary (cleanRequest req) with
    | error u =>
      simp [h8, h9] at he
      rcases he with rfl | rfl | rfl <;>
        first
          | exact ⟨fun _ => ha, fun r hr => Event.noConfusion hr⟩
          | exact ⟨fun _ => ha, fun r hr => by
              injection hr with hh
              exact hh.symm⟩
    | ok resp =>
      simp [h8, h9] at he
      rcases he with rfl | rfl | rfl <;>
        first
          | exact ⟨fun _ => ha, fun r hr => Event.noConfusion hr⟩
          | exact ⟨fun _ => ha, fun r hr => by
              injection hr with hh
              exact hh.symm⟩
  | false =>
  cases hd : env.draw with
  | false =>
    cases h9 : env.sendPrimary (cleanRequest req) with
    | error u =>
      simp [h8, hd, h9] at he
      rcases he with rfl | rfl | rfl <;>
        first
          | exact ⟨fun _ => ha, fun r hr => Event.noConfusion hr⟩
          | exact ⟨fun _ => ha, fun r hr => by
              injection hr with hh
              exact hh.symm⟩
    | ok resp =>
      simp [h8, hd, h9] at he
      rcases he with rfl | rfl | rfl <;>
        first
          | exact ⟨fun _ => ha, fun r hr => Event.noConfusion hr⟩
          | exact ⟨fun _ => ha, fun r hr => by
              injection hr with hh
              exact hh.symm⟩
  | true =>
  cases h9 : env.sendPrimary (cleanRequest req) with
  | error u =>
    simp [h8, hd, h9] at he
    rcases he with rfl | rfl | rfl <;>
      first
        | exact ⟨fun _ => ha, fun r hr => Event.noConfusion hr⟩
        | exact ⟨fun _ => ha, fun r hr => by
            injection hr with hh
            exact hh.symm⟩
  | ok orig =>
  simp only [h8, hd, h9] at he
  cases h10 : isSuccess orig.status with
  | false =>
    simp [h10] at he
    rcases he with rfl | rfl | rfl <;>
      first
        | exact ⟨fun _ => ha, fun r hr => Event.noConfusion hr⟩
        | exact ⟨fun _ => ha, fun r hr => by
            injection hr with hh
            exact hh.symm⟩
  | true =>
  by_cases h11 : MAX_AUDIO_SEGMENT_SIZE < orig.body.length
  · simp [h10, h11] at he
    rcases he with rfl | rfl | rfl <;>
      first
        | exact ⟨fun _ => ha, fun r hr => Event.noConfusion hr⟩
        | exact ⟨fun _ => ha, fun r hr => by
            injection hr with hh
            exact hh.symm⟩
  · cases h12 : env.sendWatermark (wmRequest env req c.user_key orig.body) with
    | error u =>
      simp [h10, h11, h12, wmEvents] at he
      rcases he with rfl | rfl | rfl | rfl | rfl | rfl | rfl | rfl | rfl <;>
        first
          | exact ⟨fun _ => ha, fun r hr => Event.noConfusion hr⟩
          | exact ⟨fun _ => ha, fun r hr => by
              injection hr with hh
              exact hh.symm⟩
    | ok w =>
      cases h13 : w.body.isEmpty with
      | true =>
        simp [h10, h11, h12, h13, wmEvents] at he
        rcases he with rfl | rfl | rfl | rfl | rfl | rfl | rfl | rfl | rfl <;>
          first
            | exact ⟨fun _ => ha, fun r hr => Event.noConfusion hr⟩
            | exact ⟨fun _ => ha, fun r hr => by
                injection hr with hh
                exact hh.symm⟩
      | false =>
        cases h14 : isSuccess w.status with
        | true =>
          simp [h10, h11, h12, h13, h14, wmEvents] at he
          rcases he with rfl | rfl | rfl | rfl | rfl | rfl | rfl | rfl | rfl <;>
            first
              | exact ⟨fun _ => ha, fun r hr => Event.noConfusion hr⟩
              | exact ⟨fun _ => ha, fun r hr => by
                  injection hr with hh
                  exact hh.symm⟩
        | false =>
          simp [h10, h11, h12, h13, h14, wmEvents] at he
          rcases he with rfl | rfl | rfl | rfl | rfl | rfl | rfl | rfl | rfl <;>
            first
              | exact ⟨fun _ => ha, fun r hr => Event.noConfusion hr⟩
              | exact ⟨fun _ => ha, fun r hr => by
                  injection hr with hh
                  exact hh.symm⟩

/-- **C3.** A CORS preflight is answered directly with no events at all
(no config reads, no backend calls, no authentication); a non-OPTIONS
request with no token anywhere gets 401 with an empty effect trace; and
any outbound backend call in any trace implies token verification
completed successfully first. -/
theorem auth_before_backends (env : Env) (req : HRequest) :
    (req.method = "OPTIONS" → gateway env req = (corsPreflight, [])) ∧
    (req.method ≠ "OPTIONS" → tokenOf req = none →
      (gateway env req).1.status = 401 ∧ (gateway env req).2 = []) ∧
    (∀ e ∈ (gateway env req).2, isSendEvent e = true → authSucceeded env req) := by
  refine ⟨?_, ?_, ?_⟩
  · intro hm
    simp [gateway, hm]
  · intro hm ht
    have hm' : (req.method == "OPTIONS") = false := by simpa using hm
    refine ⟨?_, ?_⟩
    · simp [gateway, handle_request, hm', ht, missingTokenResponse, textResponse]
    · rw [gateway_trace env req hm']
      simp [handle_request, ht]
  · intro e he hs
    by_cases hm : req.method = "OPTIONS"
    · have hm' : (req.method == "OPTIONS") = true := by simpa using hm
      simp [gateway, hm'] at he
    · have hm' : (req.method == "OPTIONS") = false := by simpa using hm
      rw [gateway_trace env req hm'] at he
      exact (handle_request_send_events env req e he).1 hs

/-- Witness for C3: a preflight is answered with zero events, a tokenless
GET gets 401 with zero events, and a request that did reach the primary
origin has verifiably completed authentication. -/
theorem auth_before_backends_witness :
    gateway
        { secretsKV := fun _ => some "aa"
          apiKeysKV := fun _ => some "key1"
          configKV := fun _ => none
          draw := false
          jwtDecode := fun _ _ => Except.ok ⟨"u1", 99⟩
          sendPrimary := fun _ => Except.ok ⟨200, [], [5]⟩
          sendWatermark := fun _ => Except.error () }
        ⟨"OPTIONS", "/a.m4s", [], [], []⟩ = (corsPreflight, []) ∧
    ((gateway
        { secretsKV := fun _ => some "aa"
          apiKeysKV := fun _ => some "key1"
          configKV := fun _ => none
          draw := false
          jwtDecode := fun _ _ => Except.ok ⟨"u1", 99⟩
          sendPrimary := fun _ => Except.ok ⟨200, [], [5]⟩
          sendWatermark := fun _ => Except.error () }
        ⟨"GET", "/a.m4s", [], [("x-api-key", "z")], []⟩).1.status = 401 ∧
     (gateway
        { secretsKV := fun _ => some "aa"
          apiKeysKV := fun _ => some "key1"
          configKV := fun _ => none
          draw := false
          jwtDecode := fun _ _ => Except.ok ⟨"u1", 99⟩
          sendPrimary := fun _ => Except.ok ⟨200, [], [5]⟩
          sendWatermark := fun _ => Except.error () }
        ⟨"GET", "/a.m4s", [], [("x-api-key", "z")], []⟩).2 = []) ∧
    authSucceeded
        { secretsKV := fun _ => some "aa"
          apiKeysKV := fun _ => some "key1"
          configKV := fun _ => none
          draw := false
          jwtDecode := fun _ _ => Except.ok ⟨"u1", 99⟩
          sendPrimary := fun _ => Except.ok ⟨200, [], [5]⟩
          sendWatermark := fun _ => Except.error () }
        ⟨"GET", "/a.m4s", [("token", "tok")], [], []⟩ :=
  ⟨(auth_before_backends _ ⟨"OPTIONS", "/a.m4s", [], [], []⟩).1 rfl,
   (auth_before_backends _ ⟨"GET", "/a.m4s", [], [("x-api-key", "z")], []⟩).2.1
     (by decide) (by decide),
   (auth_before_backends _ ⟨"GET", "/a.m4s", [("token", "tok")], [], []⟩).2.2
     (Event.sendPrimary (cleanRequest ⟨"GET", "/a.m4s", [("token", "tok")], [], []⟩))
     (by decide) (by decide)⟩

/-- **C9, counterexample.** A client-supplied header that is not an
authentication header (`Accept-Language`) is not preserved on the outbound
request to the primary origin: the gateway strips every client header, not
only the auth ones. -/
theorem client_header_not_preserved_counterexample :
    ("accept-language", "fr") ∈
      (⟨"GET", "/a.m4s", [("token", "tok")],
        [("accept-language", "fr")], []⟩ : HRequest).headers ∧
    Event.sendPrimary (cleanRequest
        ⟨"GET", "/a.m4s", [("token", "tok")], [("accept-language", "fr")], []⟩) ∈
      (gateway
        { secretsKV := fun _ => some "aa"
          apiKeysKV := fun _ => some "key1"
          configKV := fun _ => none
          draw := false
          jwtDecode := fun _ _ => Except.ok ⟨"u1", 99⟩
          sendPrimary := fun _ => Except.ok ⟨200, [], [5]⟩
          sendWatermark := fun _ => Except.error () }
        ⟨"GET", "/a.m4s", [("token", "tok")], [("accept-language", "fr")], []⟩).2 ∧
    ("accept-language", "fr") ∉
      (cleanRequest
        ⟨"GET", "/a.m4s", [("token", "tok")], [("accept-language", "fr")], []⟩).headers := by
  decide

/-- **C9, amended.** Every request the gateway issues to the primary
origin — manifest passthrough, non-watermark passthrough, or the
original-segment fetch — is the clean request: identical method, path,
query and body, and an empty header map (every client-supplied header is
stripped, not only the authentication ones). -/
theorem origin_requests_are_clean (env : Env) (req : HRequest) :
    ∀ r, Event.sendPrimary r ∈ (gateway env req).2 →
      r = cleanRequest req ∧ r.headers = [] := by
  intro r hr
  by_cases hm : req.method = "OPTIONS"
  · have hm' : (req.method == "OPTIONS") = true := by simpa using hm
    simp [gateway, hm'] at hr
  · have hm' : (req.method == "OPTIONS") = false := by simpa using hm
    rw [gateway_trace env req hm'] at hr
    have hclean : r = cleanRequest req :=
      (handle_request_send_events env req _ hr).2 r rfl
    refine ⟨hclean, ?_⟩
    rw [hclean]
    rfl

/-- Witness for the amended C9 on a concrete passthrough request. -/
theorem origin_requests_are_clean_witness :
    cleanRequest ⟨"GET", "/a.m4s", [("token", "tok")],
        [("accept-language", "fr")], [3]⟩ =
      cleanRequest ⟨"GET", "/a.m4s", [("token", "tok")],
        [("accept-language", "fr")], [3]⟩ ∧
    (cleanRequest ⟨"GET", "/a.m4s", [("token", "tok")],
        [("accept-language", "fr")], [3]⟩).headers = [] :=
  origin_requests_are_clean
    { secretsKV := fun _ => some "aa"
      apiKeysKV := fun _ => some "key1"
      configKV := fun _ => none
      draw := false
      jwtDecode := fun _ _ => Except.ok ⟨"u1", 99⟩
      sendPrimary := fun _ => Except.ok ⟨200, [], [5]⟩
      sendWatermark := fun _ => Except.error () }
    ⟨"GET", "/a.m4s", [("token", "tok")], [("accept-language", "fr")], [3]⟩
    (cleanRequest ⟨"GET", "/a.m4s", [("token", "tok")],
        [("accept-language", "fr")], [3]⟩)
    (by decide)

/-- Looking a name up after erasing a different name sees the original
headers. -/
theorem getHeader_eraseHeaderAll_ne (n m : String) (hs : Headers)
    (hne : n ≠ m) :
    getHeader n (eraseHeaderAll m hs) = getHeader n hs := by
  induction hs with
  | nil => rfl
  | cons p t ih =>
    by_cases hp : p.1 = m
    · have hf : (p.1 != m) = false := by simp [hp]
      have hn : (p.1 == n) = false :=
        beq_eq_false_iff_ne.mpr (fun hh => hne (hh.symm.trans hp))
      simpa [eraseHeaderAll, List.filter_cons, hf, getHeader, List.find?, hn]
        using ih
    · have hf : (p.1 != m) = true := by simp [hp]
      by_cases hq : p.1 = n
      · have hn : (p.1 == n) = true := by simp [hq]
        simp [eraseHeaderAll, List.filter_cons, hf, getHeader, List.find?, hn]
      · have hn : (p.1 == n) = false := by simp [hq]
        simpa [eraseHeaderAll, List.filter_cons, hf, getHeader, List.find?, hn]
          using ih

/-- **C10.** The gateway never reads a client-supplied `X-API-Key` header:
two inbound requests identical except for the presence or value of that
header — under the same configuration store and draw — produce identical
responses and identical effect traces, because the verification key is
derived from the server-stored `service_api_key`. -/
theorem xapikey_noninterference
    (env : Env) (m p : String) (q : List (String × String))
    (h1 h2 : Headers) (b : List Nat)
    (hagree : eraseHeaderAll "x-api-key" h1 = eraseHeaderAll "x-api-key" h2) :
    gateway env ⟨m, p, q, h1, b⟩ = gateway env ⟨m, p, q, h2, b⟩ := by
  have hh : getHeader "authorization" h1 = getHeader "authorization" h2 := by
    rw [← getHeader_eraseHeaderAll_ne "authorization" "x-api-key" h1 (by decide),
        ← getHeader_eraseHeaderAll_ne "authorization" "x-api-key" h2 (by decide),
        hagree]
  have htok : tokenOf ⟨m, p, q, h1, b⟩ = tokenOf ⟨m, p, q, h2, b⟩ := by
    simp only [tokenOf]
    rw [hh]
  have hreq : handle_request env ⟨m, p, q, h1, b⟩ =
      handle_request env ⟨m, p, q, h2, b⟩ := by
    unfold handle_request
    rw [htok]
    rfl
  unfold gateway
  rw [hreq]

/-- Witness for C10: adding an `X-API-Key: A` header changes nothing in
the response or the trace. -/
theorem xapikey_noninterference_witness :
    gateway
        { secretsKV := fun _ => some "aa"
          apiKeysKV := fun _ => some "key1"
          configKV := fun _ => none
          draw := false
          jwtDecode := fun _ _ => Except.ok ⟨"u1", 99⟩
          sendPrimary := fun _ => Except.ok ⟨200, [], [5]⟩
          sendWatermark := fun _ => Except.error () }
        ⟨"GET", "/a.m4s", [("token", "tok")], [("x-api-key", "A")], []⟩ =
      gateway
        { secretsKV := fun _ => some "aa"
          apiKeysKV := fun _ => some "key1"
          configKV := fun _ => none
          draw := false
          jwtDecode := fun _ _ => Except.ok ⟨"u1", 99⟩
          sendPrimary := fun _ => Except.ok ⟨200, [], [5]⟩
          sendWatermark := fun _ => Except.error () }
        ⟨"GET", "/a.m4s", [("token", "tok")], [], []⟩ :=
  xapikey_noninterference _ "GET" "/a.m4s" [("token", "tok")]
    [("x-api-key", "A")] [] [] (by decide)

end Stegawave
